import Mathlib

/-!
Verification of the vasuzex media-server thumbnail pipeline.

The HTTP adapter (`ImageController.getImage` in
`apps/media-server/src/controllers/ImageController.js`) is embedded as a
pure function over the request parameters, with the media-service call
abstracted as a function argument.  JavaScript string truthiness,
`parseInt`, `String.prototype.startsWith` and
`String.prototype.includes` are embedded explicitly.
-/

namespace MediaServer

/-- JS falsiness of an optional string value: `undefined` and the empty
string are falsy, every other string is truthy. -/
def jsFalsy : Option String → Bool
  | none => true
  | some s => s == ""

/-- JS `String.prototype.startsWith`: code-unit prefix test. -/
def jsStartsWith (s pre : String) : Bool :=
  pre.toList.isPrefixOf s.toList

/-- JS `String.prototype.includes`: substring containment. -/
def jsIncludes (s sub : String) : Bool :=
  (List.range (s.toList.length + 1)).any fun i =>
    sub.toList.isPrefixOf (s.toList.drop i)

/-- Whitespace characters skipped by JS `parseInt`. -/
def jsWhitespace (c : Char) : Bool :=
  c == ' ' || c == '\t' || c == '\n' || c == '\r'

/-- Accumulate a leading run of decimal digits, stopping at the first
non-digit (as JS `parseInt` does). -/
def parseDigitsAux : List Char → Nat → Nat
  | [], acc => acc
  | c :: cs, acc =>
    if c.isDigit then parseDigitsAux cs (acc * 10 + (c.toNat - '0'.toNat)) else acc

/-- Parse a leading run of decimal digits; `none` when the first
character is not a digit (JS `NaN`). -/
def parseDigits : List Char → Option Nat
  | [] => none
  | c :: cs =>
    if c.isDigit then some (parseDigitsAux cs (c.toNat - '0'.toNat)) else none

/-- JS `parseInt(s, 10)`: skip leading whitespace, take an optional
sign, then the longest run of decimal digits; `none` models `NaN`. -/
def jsParseInt (s : String) : Option Int :=
  match s.toList.dropWhile jsWhitespace with
  | '-' :: rest => (parseDigits rest).map fun n => -(n : Int)
  | '+' :: rest => (parseDigits rest).map fun n => (n : Int)
  | l => (parseDigits l).map fun n => (n : Int)

/-- Result object returned by `Media.getImage`:
`{buffer, contentType, fromCache}`. -/
structure MediaResult where
  buffer : List Nat
  contentType : String
  fromCache : Bool
deriving DecidableEq

/-- Outcome of the controller's request validation, up to the
`Media.getImage` call: either an early `this.error(res, msg, status)`
or the media-service call with the validated arguments. -/
inductive PreOutcome where
  | errorOut (msg : String) (status : Nat)
  | callMedia (path : String) (width : Int) (height : Int)
deriving DecidableEq

/-- `if (!imagePath.startsWith('uploads/')) imagePath = 'uploads/' + imagePath`. -/
def uploadsPath (p : String) : String :=
  if jsStartsWith p "uploads/" then p else "uploads/" ++ p

/-- The `parseInt` parsing and dimension guard of
`ImageController.getImage`: `isNaN(width) || isNaN(height) ||
width <= 0 || height <= 0` rejects with 400, otherwise the media
service is called with the parsed dimensions. -/
def parseDims (w1 h1 p : String) : PreOutcome :=
  match jsParseInt w1, jsParseInt h1 with
  | some wi, some hi =>
    if wi ≤ 0 || hi ≤ 0 then .errorOut "Invalid width or height values" 400
    else .callMedia p wi hi
  | _, _ => .errorOut "Invalid width or height values" 400

/-- The validation prefix of `ImageController.getImage`: missing-path
check, `uploads/` prefixing, defaulting of both `w` and `h` to `'800'`
when either is falsy, then `parseDims`. -/
def getImagePre (imagePath w h : Option String) : PreOutcome :=
  if jsFalsy imagePath then .errorOut "Image path is required" 400
  else if jsFalsy w || jsFalsy h then
    parseDims "800" "800" (uploadsPath (imagePath.getD ""))
  else
    parseDims (w.getD "") (h.getD "") (uploadsPath (imagePath.getD ""))

/-- The HTTP response produced by the handler: an error response or a
successful send with `Content-Type`, `Cache-Control` and `X-Cache`
headers and the body bytes. -/
inductive Response where
  | errorResp (msg : String) (status : Nat)
  | send (contentType cacheControl xCache : String) (body : List Nat)
deriving DecidableEq

/-- The `catch` block of `ImageController.getImage`: map a thrown error
message to an error response by substring matching. -/
def mapCaughtError (msg : String) : Response :=
  if jsIncludes msg "Invalid thumbnail size" then .errorResp msg 400
  else if jsIncludes msg "not found" || jsIncludes msg "ENOENT" then
    .errorResp "Image not found" 404
  else .errorResp "Failed to process image" 500

/-- Full `ImageController.getImage` handler, with the media service
(`Media.getImage`) passed in as a function; a thrown error is modelled
as `Except.error` carrying the error message. -/
def getImage (media : String → Int → Int → Except String MediaResult)
    (imagePath w h : Option String) : Response :=
  match getImagePre imagePath w h with
  | .errorOut m s => .errorResp m s
  | .callMedia p wi hi =>
    match media p wi hi with
    | .ok r =>
      .send r.contentType "public, max-age=604800"
        (if r.fromCache then "HIT" else "MISS") r.buffer
    | .error msg => mapCaughtError msg

/-- The `X-Cache` header of a response, when present. -/
def xCacheOf : Response → Option String
  | .send _ _ x _ => some x
  | .errorResp _ _ => none

/-- Modelled from the spec: the error taxonomy of §7 of the media-core
design (the media-service core is not in the repository source tree;
only the HTTP adapter is). -/
inductive MediaError where
  | invalidRequest
  | sizePolicyViolation
  | notFound
  | transformError
  | cacheWriteError
  | storageUnavailable
deriving DecidableEq

/-- Modelled from the spec: the media-core configuration surface
(default dimensions and bounded-mode size limits; defaults from the
generated `.env` template: `MEDIA_MAX_WIDTH=2048`, `MEDIA_MAX_HEIGHT=2048`,
default pair 800×800). -/
structure MediaCfg where
  defaultW : Nat := 800
  defaultH : Nat := 800
  maxW : Nat := 2048
  maxH : Nat := 2048
deriving DecidableEq

/-- Modelled from the spec: Size Policy `normalize(width?, height?)` —
both omitted resolve to the default pair; one omitted, non-positive or
non-numeric values are malformed (`invalidRequest`, the §7 kind for
malformed dimensions); values beyond the bounded-mode limits are a
`sizePolicyViolation`. -/
def normalizeSize (cfg : MediaCfg) : Option Int → Option Int → Except MediaError (Nat × Nat)
  | none, none => .ok (cfg.defaultW, cfg.defaultH)
  | some w, some h =>
    if w ≤ 0 || h ≤ 0 then .error .invalidRequest
    else if cfg.maxW < w.toNat || cfg.maxH < h.toNat then .error .sizePolicyViolation
    else .ok (w.toNat, h.toNat)
  | _, _ => .error .invalidRequest

/-- Split a character list into `/`-separated segments. -/
def splitSegsAux : List Char → List Char → List (List Char)
  | [], acc => [acc.reverse]
  | c :: cs, acc =>
    if c == '/' then acc.reverse :: splitSegsAux cs [] else splitSegsAux cs (c :: acc)

/-- A path contains a directory-traversal segment when some
`/`-separated segment is `..`. -/
def hasTraversal (p : String) : Bool :=
  (splitSegsAux p.toList []).any fun seg => seg == ['.', '.']

/-- Modelled from the spec: source-path normalization of the Cache Key
Deriver — directory-traversal segments are rejected with
`invalidRequest`; leading slashes are stripped. -/
def normalizePath (p : String) : Except MediaError String :=
  if hasTraversal p then .error .invalidRequest
  else .ok (String.mk (p.toList.dropWhile fun c => c == '/'))

/-- Length-prefix a variable-length field so that concatenation of
encoded fields is unambiguous. -/
def encodeField (f : List Nat) : List Nat := f.length :: f

/-- Modelled from the spec: the Cache Key Deriver
`deriveKey(sourcePath, w, h, fingerprint)` — a digest over the
concatenation of the normalized path bytes, width, height and
fingerprint bytes with explicit field separators; the digest is
idealized as the injective length-prefixed encoding itself (the spec
requires collision resistance across the whole input tuple). -/
def deriveKey (path : List Nat) (w h : Nat) (fp : List Nat) : List Nat :=
  encodeField path ++ w :: h :: encodeField fp

/-- Bytes of a string, for feeding a path into `deriveKey`. -/
def strBytes (s : String) : List Nat := s.toList.map Char.toNat

/-- Observable effects of one `getThumbnail` evaluation, in order. -/
inductive MediaEvent where
  | storageResolve (path : String)
  | cacheProbe (key : List Nat)
  | transform (w h : Nat)
  | cachePut (key : List Nat)
deriving DecidableEq

/-- Modelled from the spec: result of `getThumbnail` —
`{bytes, contentType, servedFromCache}`. -/
structure ThumbOut where
  bytes : List Nat
  contentType : String
  servedFromCache : Bool
deriving DecidableEq

/-- Modelled from the spec: the Media Service facade `getThumbnail`
pipeline — Size Policy, path normalization, source resolution (bytes +
fingerprint) via the storage collaborator, key derivation, cache probe,
and on a miss transform + cache put.  Returns the outcome together with
the ordered list of effects performed. -/
def getThumbnail (cfg : MediaCfg)
    (storage : String → Except MediaError (List Nat × List Nat))
    (cache : List Nat → Option (List Nat × String))
    (transform : List Nat → Nat → Nat → Except MediaError (List Nat × String))
    (p : String) (w h : Option Int) :
    Except MediaError ThumbOut × List MediaEvent :=
  match normalizeSize cfg w h with
  | .error e => (.error e, [])
  | .ok (ww, hh) =>
    match normalizePath p with
    | .error e => (.error e, [])
    | .ok np =>
      match storage np with
      | .error e => (.error e, [.storageResolve np])
      | .ok (srcBytes, fp) =>
        let key := deriveKey (strBytes np) ww hh fp
        match cache key with
        | some (payload, ct) =>
          (.ok ⟨payload, ct, true⟩, [.storageResolve np, .cacheProbe key])
        | none =>
          match transform srcBytes ww hh with
          | .error e =>
            (.error e, [.storageResolve np, .cacheProbe key, .transform ww hh])
          | .ok (outBytes, ct) =>
            (.ok ⟨outBytes, ct, false⟩,
             [.storageResolve np, .cacheProbe key, .transform ww hh, .cachePut key])

/-- State of the Request Coalescer for one cache key: the list of
callers waiting on the in-flight transform (leader included), if one is
in flight; the number of transformer invocations so far; and the
results delivered to callers. -/
structure FlightState where
  waiting : Option (List Nat)
  transforms : Nat
  delivered : List (Nat × List Nat)
deriving DecidableEq

/-- Events at one uncached key: a caller arrives, or the in-flight
transform completes with a result. -/
inductive FlightEvent where
  | arrive (c : Nat)
  | complete (r : List Nat)
deriving DecidableEq

/-- Modelled from the spec: the per-key coalescer state machine
(`Idle → InFlight → Idle`).  An arriving caller becomes the leader when
the key is idle (starting exactly one transform) and a follower
otherwise; completion broadcasts the result to all waiters and returns
the key to idle. -/
def flightStep (s : FlightState) : FlightEvent → FlightState
  | .arrive c =>
    match s.waiting with
    | none => { waiting := some [c], transforms := s.transforms + 1, delivered := s.delivered }
    | some l => { s with waiting := some (l ++ [c]) }
  | .complete r =>
    match s.waiting with
    | some l =>
      { waiting := none, transforms := s.transforms,
        delivered := s.delivered ++ l.map fun c => (c, r) }
    | none => s

/-- Run the coalescer over a sequence of events. -/
def flightRun (s : FlightState) (es : List FlightEvent) : FlightState :=
  es.foldl flightStep s

/-- Initial coalescer state: key idle, no transforms, nothing delivered. -/
def flightInit : FlightState := ⟨none, 0, []⟩

theorem uploads_startsWith_append (q : String) :
    jsStartsWith ("uploads/" ++ q) "uploads/" = true := by
  simp [jsStartsWith, String.toList]

theorem uploadsPath_startsWith (p : String) :
    jsStartsWith (uploadsPath p) "uploads/" = true := by
  unfold uploadsPath
  split
  · assumption
  · exact uploads_startsWith_append p

theorem uploadsPath_ne_empty (p : String) : uploadsPath p ≠ "" := by
  unfold uploadsPath
  split
  · next hsw =>
    intro h
    rw [h] at hsw
    exact absurd hsw (by decide)
  · intro h
    have hd := congrArg String.data h
    simp [String.data_append] at hd

theorem uploadsPath_prepend (q : String) (hq : jsStartsWith q "uploads/" = false) :
    uploadsPath q = uploadsPath ("uploads/" ++ q) := by
  simp [uploadsPath, hq, uploads_startsWith_append]

theorem parseDims_callMedia {a b p pp : String} {ww hh : Int}
    (h : parseDims a b p = .callMedia pp ww hh) :
    pp = p ∧ jsParseInt a = some ww ∧ jsParseInt b = some hh := by
  unfold parseDims at h
  cases ha : jsParseInt a with
  | none => rw [ha] at h; exact absurd h (by simp)
  | some x =>
    cases hb : jsParseInt b with
    | none => rw [ha, hb] at h; exact absurd h (by simp)
    | some y =>
      rw [ha, hb] at h
      dsimp only at h
      by_cases hxy : (x ≤ 0 || y ≤ 0) = true
      · rw [if_pos hxy] at h; exact absurd h (by simp)
      · rw [if_neg hxy] at h
        injection h with h1 h2 h3
        subst h2
        subst h3
        exact ⟨h1.symm, rfl, rfl⟩

theorem parseDims_default (p : String) : parseDims "800" "800" p = .callMedia p 800 800 := rfl

theorem parseDims_invalid (a b p : String)
    (hbad : jsParseInt a = none ∨ jsParseInt b = none ∨
      (∃ x, jsParseInt a = some x ∧ x ≤ 0) ∨ (∃ x, jsParseInt b = some x ∧ x ≤ 0)) :
    parseDims a b p = .errorOut "Invalid width or height values" 400 := by
  unfold parseDims
  cases ha : jsParseInt a with
  | none => rfl
  | some x =>
    cases hb : jsParseInt b with
    | none => rfl
    | some y =>
      have hxy : (x ≤ 0 || y ≤ 0) = true := by
        rcases hbad with hc | hc | ⟨z, hz, hz0⟩ | ⟨z, hz, hz0⟩
        · rw [ha] at hc; cases hc
        · rw [hb] at hc; cases hc
        · rw [ha] at hz; injection hz with hz; subst hz
          simp [hz0]
        · rw [hb] at hz; injection hz with hz; subst hz
          simp [hz0]
      dsimp only
      rw [if_pos hxy]

theorem getImagePre_path (i w h : Option String) (pp : String) (ww hh : Int)
    (heq : getImagePre i w h = .callMedia pp ww hh) :
    pp = uploadsPath (i.getD "") := by
  unfold getImagePre at heq
  split at heq
  · exact absurd heq (by simp)
  · split at heq
    · exact (parseDims_callMedia heq).1
    · exact (parseDims_callMedia heq).1

theorem encodeKey_inj {p1 p2 : List Nat} {w1 w2 h1 h2 : Nat} {f1 f2 : List Nat}
    (h : deriveKey p1 w1 h1 f1 = deriveKey p2 w2 h2 f2) :
    p1 = p2 ∧ w1 = w2 ∧ h1 = h2 ∧ f1 = f2 := by
  unfold deriveKey encodeField at h
  rw [List.cons_append, List.cons_append] at h
  injection h with hlen htail
  obtain ⟨hp, hrest⟩ := List.append_inj htail hlen
  injection hrest with hw hrest
  injection hrest with hh hrest
  injection hrest with hf hfp
  exact ⟨hp, hw, hh, hfp⟩

theorem flightRun_arrive (cs : List Nat) (l : List Nat) (t : Nat)
    (d : List (Nat × List Nat)) :
    flightRun ⟨some l, t, d⟩ (cs.map .arrive) = ⟨some (l ++ cs), t, d⟩ := by
  induction cs generalizing l with
  | nil => simp [flightRun]
  | cons c cs ih =>
    have h1 : flightRun ⟨some l, t, d⟩ ((c :: cs).map .arrive) =
        flightRun ⟨some (l ++ [c]), t, d⟩ (cs.map .arrive) := rfl
    rw [h1, ih, List.append_assoc]
    rfl

/-- C1 (counterexample): a request with only `width=300` and no height
is not rejected by the controller — both dimensions are reset to the
default 800 and a thumbnail is served, refuting the claim that such a
request fails with the invalid-dimensions error. -/
theorem c1_counterexample :
    getImage (fun _ _ _ => Except.ok ⟨[7], "image/jpeg", false⟩)
      (some "a.jpg") (some "300") none =
      .send "image/jpeg" "public, max-age=604800" "MISS" [7] := by decide

/-- C1 (amended): a request supplying exactly one of width and height
does not fail; the supplied value is discarded, both dimensions are
reset to the default `'800'`, and the media service is called with
800×800. -/
theorem c1_single_dimension_defaults (p : String) (w0 h0 : Option String)
    (hp : jsFalsy (some p) = false) (hxor : jsFalsy w0 ≠ jsFalsy h0) :
    getImagePre (some p) w0 h0 = .callMedia (uploadsPath p) 800 800 := by
  have hor : (jsFalsy w0 || jsFalsy h0) = true := by
    cases hw : jsFalsy w0 <;> cases hh : jsFalsy h0 <;> simp_all
  simp [getImagePre, hp, hor, parseDims_default]

/-- C1 witness: the amended statement at the concrete request of the
claim's scenario (`width=300`, no height). -/
theorem c1_single_dimension_defaults_witness :
    getImagePre (some "a.jpg") (some "300") none =
      .callMedia (uploadsPath "a.jpg") 800 800 :=
  c1_single_dimension_defaults "a.jpg" (some "300") none (by decide) (by decide)

/-- C2 (counterexample): the non-integer value `w="12.5"` is not
rejected — `parseInt` truncates it to 12 and the media service is
invoked with 12×10, refuting the claim that non-integer values fail. -/
theorem c2_counterexample :
    getImagePre (some "a.jpg") (some "12.5") (some "10") =
      .callMedia "uploads/a.jpg" 12 10 := by decide

/-- C2 (amended): when both dimensions are supplied, a value with no
parseable leading integer (`parseInt` NaN) or a non-positive parsed
value is rejected with the invalid-dimensions 400 error, and the media
service is not invoked (the response is the same for every media
function); non-integer numeric strings, however, are truncated by
`parseInt` and accepted. -/
theorem c2_invalid_values_rejected (i : Option String) (ws hs : String)
    (media : String → Int → Int → Except String MediaResult)
    (hi : jsFalsy i = false)
    (hw : jsFalsy (some ws) = false) (hh : jsFalsy (some hs) = false)
    (hbad : jsParseInt ws = none ∨ jsParseInt hs = none ∨
      (∃ x, jsParseInt ws = some x ∧ x ≤ 0) ∨ (∃ x, jsParseInt hs = some x ∧ x ≤ 0)) :
    getImage media i (some ws) (some hs) =
      .errorResp "Invalid width or height values" 400 := by
  have hcond : (jsFalsy (some ws) || jsFalsy (some hs)) = false := by
    rw [hw, hh]; rfl
  have hpre : getImagePre i (some ws) (some hs) =
      .errorOut "Invalid width or height values" 400 := by
    simp only [getImagePre, hi, hcond, Bool.false_eq_true, if_false, Option.getD_some]
    exact parseDims_invalid _ _ _ hbad
  simp [getImage, hpre]

/-- C2 witness: the amended statement at `w=0`. -/
theorem c2_invalid_values_rejected_witness :
    getImage (fun _ _ _ => Except.ok ⟨[], "image/jpeg", false⟩)
      (some "a.jpg") (some "0") (some "100") =
      .errorResp "Invalid width or height values" 400 :=
  c2_invalid_values_rejected (some "a.jpg") "0" "100" _ (by decide) (by decide)
    (by decide) (Or.inr (Or.inr (Or.inl ⟨0, by decide, by decide⟩)))

/-- C3: a source path containing a `..` traversal segment is rejected
by the (spec-modelled) media pipeline with `invalidRequest`: for every
storage, cache and transform collaborator the pipeline performs no
effect at all (no storage access, no cache probe, no key is derived),
and whenever the size-policy step succeeds the outcome is the
`invalidRequest` error. -/
theorem c3_traversal_rejected (cfg : MediaCfg)
    (storage : String → Except MediaError (List Nat × List Nat))
    (cache : List Nat → Option (List Nat × String))
    (tr : List Nat → Nat → Nat → Except MediaError (List Nat × String))
    (p : String) (w h : Option Int) (hp : hasTraversal p = true) :
    (getThumbnail cfg storage cache tr p w h).2 = [] ∧
    ∀ d, normalizeSize cfg w h = .ok d →
      (getThumbnail cfg storage cache tr p w h).1 =
        .error .invalidRequest := by
  have hnp : normalizePath p = .error .invalidRequest := by
    simp [normalizePath, hp]
  constructor
  · cases hns : normalizeSize cfg w h with
    | error e => simp [getThumbnail, hns]
    | ok d => obtain ⟨ww, hh⟩ := d; simp [getThumbnail, hns, hnp]
  · intro d hd
    obtain ⟨ww, hh⟩ := d
    simp [getThumbnail, hd, hnp]

/-- C3 witness: the traversal path `../etc/passwd` with omitted
dimensions, a concrete storage/cache/transform triple. -/
theorem c3_traversal_rejected_witness :
    (getThumbnail {} (fun _ => Except.error .notFound) (fun _ => none)
      (fun _ _ _ => Except.error .transformError) "../etc/passwd" none none).2 = [] ∧
    (getThumbnail {} (fun _ => Except.error .notFound) (fun _ => none)
      (fun _ _ _ => Except.error .transformError) "../etc/passwd" none none).1 =
      .error .invalidRequest := by
  have h := c3_traversal_rejected {} (fun _ => Except.error .notFound) (fun _ => none)
    (fun _ _ _ => Except.error .transformError) "../etc/passwd" none none (by decide)
  exact ⟨h.1, h.2 (800, 800) rfl⟩

/-- C4: in the (spec-modelled) per-key coalescer, when N ≥ 50 callers
arrive for an uncached key before the in-flight transform completes,
exactly one transformer invocation occurs, every caller is delivered
the same result, and the key returns to idle. -/
theorem c4_single_flight (callers : List Nat) (r : List Nat)
    (hn : 50 ≤ callers.length) :
    (flightRun flightInit (callers.map .arrive ++ [.complete r])).transforms = 1 ∧
    (flightRun flightInit (callers.map .arrive ++ [.complete r])).delivered =
      callers.map (fun c => (c, r)) ∧
    (flightRun flightInit (callers.map .arrive ++ [.complete r])).waiting = none := by
  obtain ⟨c, cs, rfl⟩ : ∃ c cs, callers = c :: cs := by
    cases callers with
    | nil => simp at hn
    | cons c cs => exact ⟨c, cs, rfl⟩
  have h1 : flightRun flightInit ((c :: cs).map FlightEvent.arrive) =
      ⟨some (c :: cs), 1, []⟩ := by
    have h0 : flightRun flightInit ((c :: cs).map FlightEvent.arrive) =
        flightRun ⟨some [c], 1, []⟩ (cs.map FlightEvent.arrive) := rfl
    rw [h0, flightRun_arrive]
    simp
  have h2 : flightRun flightInit ((c :: cs).map FlightEvent.arrive ++ [.complete r]) =
      flightStep (flightRun flightInit ((c :: cs).map FlightEvent.arrive))
        (.complete r) := by
    simp [flightRun, List.foldl_append]
  rw [h2, h1]
  simp [flightStep]

/-- C4 witness: 50 concurrent callers for one uncached key. -/
theorem c4_single_flight_witness :
    (flightRun flightInit
      ((List.range 50).map FlightEvent.arrive ++ [.complete [1]])).transforms = 1 ∧
    (flightRun flightInit
      ((List.range 50).map FlightEvent.arrive ++ [.complete [1]])).delivered =
      (List.range 50).map (fun c => (c, [1])) ∧
    (flightRun flightInit
      ((List.range 50).map FlightEvent.arrive ++ [.complete [1]])).waiting = none :=
  c4_single_flight (List.range 50) [1] (by decide)

/-- C5: the (spec-modelled) cache-key derivation is deterministic —
identical (path, width, height, fingerprint) inputs give the identical
key — and fingerprint-sensitive: any two inputs with different
fingerprints give different keys. -/
theorem c5_key_determinism_and_sensitivity (p1 p2 : List Nat)
    (w1 w2 h1 h2 : Nat) (f1 f2 : List Nat) :
    (p1 = p2 → w1 = w2 → h1 = h2 → f1 = f2 →
      deriveKey p1 w1 h1 f1 = deriveKey p2 w2 h2 f2) ∧
    (f1 ≠ f2 → deriveKey p1 w1 h1 f1 ≠ deriveKey p2 w2 h2 f2) := by
  constructor
  · intro hp hw hh hf
    rw [hp, hw, hh, hf]
  · intro hf hk
    exact hf (encodeKey_inj hk).2.2.2

/-- C5 witness: concrete equal inputs give the same key; changing only
the fingerprint changes the key. -/
theorem c5_key_witness :
    deriveKey [1] 2 3 [0] = deriveKey [1] 2 3 [0] ∧
    deriveKey [1] 2 3 [0] ≠ deriveKey [1] 2 3 [4] :=
  ⟨(c5_key_determinism_and_sensitivity [1] [1] 2 2 3 3 [0] [0]).1 rfl rfl rfl rfl,
   (c5_key_determinism_and_sensitivity [1] [1] 2 2 3 3 [0] [4]).2 (by decide)⟩

/-- C6: a request that omits both width and height resolves to the
default pair 800×800 and the media service is called with exactly those
dimensions rather than failing. -/
theorem c6_default_pair (p : String) (hp : jsFalsy (some p) = false) :
    getImagePre (some p) none none = .callMedia (uploadsPath p) 800 800 := by
  unfold getImagePre
  rw [if_neg (by simp [hp])]
  rfl

/-- C6 witness. -/
theorem c6_default_pair_witness :
    getImagePre (some "photo.jpg") none none =
      .callMedia (uploadsPath "photo.jpg") 800 800 :=
  c6_default_pair "photo.jpg" (by decide)

/-- C7: when the media service throws, the adapter maps the error
message: a size-policy message (`Invalid thumbnail size`) to 400 with
the message verbatim, a missing-source message (`not found`/`ENOENT`,
not a size-policy message) to 404 `Image not found`, and every other
message to 500 `Failed to process image`. -/
theorem c7_error_mapping (media : String → Int → Int → Except String MediaResult)
    (i w0 h0 : Option String) (pp : String) (ww hh : Int) (msg : String)
    (hpre : getImagePre i w0 h0 = .callMedia pp ww hh)
    (hm : media pp ww hh = .error msg) :
    (jsIncludes msg "Invalid thumbnail size" = true →
      getImage media i w0 h0 = .errorResp msg 400) ∧
    (jsIncludes msg "Invalid thumbnail size" = false →
      (jsIncludes msg "not found" || jsIncludes msg "ENOENT") = true →
      getImage media i w0 h0 = .errorResp "Image not found" 404) ∧
    (jsIncludes msg "Invalid thumbnail size" = false →
      (jsIncludes msg "not found" || jsIncludes msg "ENOENT") = false →
      getImage media i w0 h0 = .errorResp "Failed to process image" 500) := by
  have hg : getImage media i w0 h0 = mapCaughtError msg := by
    simp [getImage, hpre, hm]
  refine ⟨fun h1 => ?_, fun h1 h2 => ?_, fun h1 h2 => ?_⟩
  · rw [hg]; simp [mapCaughtError, h1]
  · rw [hg]; simp [mapCaughtError, h1, h2]
  · rw [hg]; simp [mapCaughtError, h1, h2]

/-- C7 witness: a `not found` failure from the media service surfaces
as 404. -/
theorem c7_error_mapping_witness :
    getImage (fun _ _ _ => Except.error "source not found")
      (some "a.jpg") (some "100") (some "100") =
      .errorResp "Image not found" 404 :=
  (c7_error_mapping (fun _ _ _ => Except.error "source not found")
    (some "a.jpg") (some "100") (some "100") "uploads/a.jpg" 100 100
    "source not found" (by decide) rfl).2.1 (by decide) (by decide)

/-- C8: the media result carries the boolean cache-hit flag
(`fromCache`), and on every successful request the adapter sets the
`X-Cache` header to `HIT` exactly when the flag is true and to `MISS`
exactly when it is false. -/
theorem c8_xcache_header (media : String → Int → Int → Except String MediaResult)
    (i w0 h0 : Option String) (pp : String) (ww hh : Int) (r : MediaResult)
    (hpre : getImagePre i w0 h0 = .callMedia pp ww hh)
    (hm : media pp ww hh = .ok r) :
    getImage media i w0 h0 = .send r.contentType "public, max-age=604800"
      (if r.fromCache then "HIT" else "MISS") r.buffer ∧
    (r.fromCache = true → xCacheOf (getImage media i w0 h0) = some "HIT") ∧
    (r.fromCache = false → xCacheOf (getImage media i w0 h0) = some "MISS") := by
  have hg : getImage media i w0 h0 = .send r.contentType "public, max-age=604800"
      (if r.fromCache then "HIT" else "MISS") r.buffer := by
    simp [getImage, hpre, hm]
  refine ⟨hg, fun hc => ?_, fun hc => ?_⟩ <;> simp [hg, xCacheOf, hc]

/-- C8 witness: a cached result is served with `X-Cache: HIT`. -/
theorem c8_xcache_header_witness :
    xCacheOf (getImage (fun _ _ _ => Except.ok ⟨[3], "image/png", true⟩)
      (some "a.jpg") (some "100") (some "200")) = some "HIT" :=
  (c8_xcache_header (fun _ _ _ => Except.ok ⟨[3], "image/png", true⟩)
    (some "a.jpg") (some "100") (some "200") "uploads/a.jpg" 100 200
    ⟨[3], "image/png", true⟩ (by decide) rfl).2.1 rfl

/-- C9: whenever the controller reaches the media call, the path passed
to the media service is the `uploads/`-normalized request path: it
always begins with `uploads/`, a path already carrying the prefix is
passed unchanged, any other path gets `uploads/` prepended, and a bare
path and its `uploads/`-prefixed form normalize to the same path. -/
theorem c9_uploads_prefix_invariant (w0 h0 : Option String) (p pp : String)
    (ww hh : Int)
    (hpre : getImagePre (some p) w0 h0 = .callMedia pp ww hh) :
    pp = uploadsPath p ∧ jsStartsWith pp "uploads/" = true ∧
    (jsStartsWith p "uploads/" = true → pp = p) ∧
    (jsStartsWith p "uploads/" = false → pp = "uploads/" ++ p) ∧
    ∀ q, jsStartsWith q "uploads/" = false →
      uploadsPath q = uploadsPath ("uploads/" ++ q) := by
  have h1 : pp = uploadsPath p := by
    simpa using getImagePre_path (some p) w0 h0 pp ww hh hpre
  refine ⟨h1, h1 ▸ uploadsPath_startsWith p, fun ht => ?_, fun hf => ?_,
    uploadsPath_prepend⟩
  · rw [h1, uploadsPath, if_pos ht]
  · rw [h1, uploadsPath, if_neg (by simp [hf])]

/-- C9 witness: the bare path `a.jpg` is passed to the media service as
`uploads/a.jpg`. -/
theorem c9_uploads_prefix_invariant_witness :
    "uploads/a.jpg" = uploadsPath "a.jpg" ∧
    jsStartsWith "uploads/a.jpg" "uploads/" = true ∧
    (jsStartsWith "a.jpg" "uploads/" = true → "uploads/a.jpg" = "a.jpg") ∧
    (jsStartsWith "a.jpg" "uploads/" = false →
      "uploads/a.jpg" = "uploads/" ++ "a.jpg") ∧
    ∀ q, jsStartsWith q "uploads/" = false →
      uploadsPath q = uploadsPath ("uploads/" ++ q) :=
  c9_uploads_prefix_invariant (some "100") (some "100") "a.jpg" "uploads/a.jpg"
    100 100 (by decide)

/-- C10: a request whose image path is missing or empty gets the 400
`Image path is required` error for every media function (so the media
service is not consulted), and conversely every path the controller
ever hands to the media service is non-empty. -/
theorem c10_missing_path (i w0 h0 : Option String) (hi : jsFalsy i = true) :
    (∀ media, getImage media i w0 h0 = .errorResp "Image path is required" 400) ∧
    ∀ (j w1 h1 : Option String) (pp : String) (ww hh : Int),
      getImagePre j w1 h1 = .callMedia pp ww hh → pp ≠ "" := by
  constructor
  · intro media
    simp [getImage, getImagePre, hi]
  · intro j w1 h1 pp ww hh hpre
    rw [getImagePre_path j w1 h1 pp ww hh hpre]
    exact uploadsPath_ne_empty _

/-- C10 witness: the empty path at a concrete request. -/
theorem c10_missing_path_witness :
    getImage (fun _ _ _ => Except.ok ⟨[], "x", false⟩) (some "") (some "1")
      (some "1") = .errorResp "Image path is required" 400 :=
  (c10_missing_path (some "") (some "1") (some "1") (by decide)).1 _

end MediaServer
